import Mathlib

/-
Verification of the reminder scheduling and delivery engine of the
Invoice-Generator repository (class ReminderScheduler, together with the
EmailService notification channel and the DataStore persistence layer).

Shallow embedding conventions:
- Timestamps are natural numbers counting minutes since an arbitrary epoch
  (JavaScript millisecond timestamps are nonnegative; all arithmetic in the
  source is linear in time, so minutes keep every comparison exact).
  One calendar day is 1440 minutes; Date.setDate shifting by n days is
  embedded as adding or subtracting n * 1440 minutes.
- A JavaScript Date built from a missing field (new Date(undefined)) is an
  Invalid Date: every ordered comparison against it is false.  Such times are
  embedded as Option Nat with none, and the comparison helpers return false
  on none, exactly matching the source behaviour.
- The undefined attempts field of a manually created reminder (and the NaN
  produced by undefined + 1) is embedded as none : Option Nat; both compare
  false under the less-than test the source performs, which is the only way
  the source ever observes that value.
- The asynchronous email call is embedded as an explicit outcome parameter of
  type Except String SendResult: Except.ok models a promise that resolves
  (whatever the value of its success flag), Except.error models a throw or a
  rejected promise, which is what the try/catch in processReminder observes.
- processDueReminders drives each due reminder through processReminder in
  order; the embedding runs them sequentially to completion, the single
  logical timeline of the scheduler.
- Business hours settings are stored in the source as strings "HH:MM" and
  parsed with split/map(Number) at every use; the embedding keeps the parsed
  hour and minute fields directly.
-/

namespace InvoiceReminder

/-
Layout: the data model and the embedded scheduler operations come first,
together with the concrete fixture states the counterexamples and witnesses
evaluate; the theorems follow.
-/

/-- Reminder type, the type field of a reminder record in the source. -/
inductive RType
  | beforeDue
  | onDue
  | afterDue
deriving DecidableEq, Repr

/-- Reminder status strings used by ReminderScheduler. -/
inductive RStatus
  | scheduled
  | pending
  | sent
  | failed
  | cancelled
  | manual
deriving DecidableEq, Repr

/-- Invoice status strings used by DataStore and ReminderScheduler.  The
scheduler code only ever distinguishes the paid and draft statuses; all
other statuses (sent, overdue) behave alike there. -/
inductive IStatus
  | draft
  | sent
  | overdue
  | paid
deriving DecidableEq, Repr

/-- Result object resolved by EmailService.sendReminderEmail. -/
structure SendResult where
  success : Bool
  messageId : String
  provider : String
deriving DecidableEq, Repr

/-- An entry of invoice.reminderHistory as pushed by
ReminderScheduler.addToInvoiceReminderHistory. -/
structure HistEntry where
  id : Nat
  htype : RType
  days : Option Nat
  sentAt : Nat
  hstatus : RStatus
  messageId : String
  provider : String
deriving DecidableEq, Repr

/-- The subset of invoice fields read or written by the scheduler. -/
structure Invoice where
  id : String
  status : IStatus
  dueDate : Option Nat
  reminderHistory : List HistEntry
deriving DecidableEq, Repr

/-- settings.businessHours with the "HH:MM" strings already parsed. -/
structure BusinessHours where
  enabled : Bool
  startHour : Nat
  startMinute : Nat
  endHour : Nat
  endMinute : Nat
deriving DecidableEq, Repr

/-- The reminder settings object returned by dataStore.getReminderSettings. -/
structure ReminderSettings where
  enabled : Bool
  beforeDueDays : List Nat
  afterDueDays : List Nat
  maxReminders : Nat
  businessHours : BusinessHours
deriving DecidableEq, Repr

/-- A reminder record of the ledger.  Optional fields are absent (undefined)
until the scheduler writes them. -/
structure Reminder where
  id : Nat
  invoiceId : String
  rtype : RType
  days : Option Nat
  status : RStatus
  attempts : Option Nat
  scheduledDate : Option Nat
  nextAttempt : Option Nat
  lastAttempt : Option Nat
  sentAt : Option Nat
  failedAt : Option Nat
  cancelledAt : Option Nat
  messageId : Option String
  provider : Option String
  error : Option String
  reason : Option String
  rescheduledReason : Option String
deriving DecidableEq, Repr

/-- A notification record added through dataStore.addNotification. -/
structure Notice where
  ntype : String
  invoiceId : String
  reminderId : Nat
deriving DecidableEq, Repr

/-- The persistent state the scheduler operates on: the invoice collection,
the reminder ledger, the reminder settings and the notification list.
nextId is the id counter of the ledger append operation. -/
structure SchedState where
  invoices : List Invoice
  reminders : List Reminder
  settings : ReminderSettings
  nextId : Nat
  notices : List Notice
deriving DecidableEq, Repr

/-- Delivery outcomes, indexed by invoice id and reminder type exactly as
emailService.sendReminderEmail(invoice, reminder.type) is keyed. -/
def Channel : Type := String → RType → Except String SendResult

/-- dataStore.getInvoice: first invoice with the given id (Array.find). -/
def getInvoice (s : SchedState) (invoiceId : String) : Option Invoice :=
  s.invoices.find? fun i => i.id = invoiceId

/-- Modelled from the spec: the Ledger interface operation
updateById(id, partial) of the Reminder Ledger; the DataStore reminder
methods are called by the scheduler sources but their implementation file is
not part of the repository snapshot.  The merge function f embeds the object
spread of the JavaScript partial update; ledger ids are assigned by a
counter, so updating every record carrying the id coincides with
update-by-id. -/
def updateReminder (s : SchedState) (rid : Nat) (f : Reminder → Reminder) :
    SchedState :=
  { s with reminders := s.reminders.map fun e => if e.id = rid then f e else e }

/-- Modelled from the spec: the Ledger interface operation
append(ReminderDraft), which assigns the fresh id; build constructs the
record from that id. -/
def addReminder (s : SchedState) (build : Nat → Reminder) :
    SchedState × Reminder :=
  let r := build s.nextId
  ({ s with reminders := s.reminders ++ [r], nextId := s.nextId + 1 }, r)

/-- dataStore.updateInvoice restricted to the one partial the scheduler ever
passes, a replacement reminderHistory (no status field, so the status
transition validation of updateInvoice is not triggered). -/
def updateInvoiceHistory (s : SchedState) (invoiceId : String)
    (hist : List HistEntry) : SchedState :=
  { s with
    invoices := s.invoices.map fun i =>
      if i.id = invoiceId then { i with reminderHistory := hist } else i }

/-- Modelled from the spec: dataStore.addNotification, an append to the
notification collection; only the fields the claims mention are kept. -/
def addNotice (s : SchedState) (n : Notice) : SchedState :=
  { s with notices := s.notices ++ [n] }

/-- ReminderScheduler.hasReminderBeenSent: does the reminderHistory contain a
sent entry of this type (and of this days offset when days is passed; the
call for onDue passes null, embedded as none). -/
def hasReminderBeenSent (reminderHistory : List HistEntry) (t : RType)
    (days : Option Nat) : Bool :=
  reminderHistory.any fun e =>
    decide (e.htype = t) &&
    (match days with
     | none => true
     | some d => decide (e.days = some d)) &&
    decide (e.hstatus = RStatus.sent)

/-- ReminderScheduler.scheduleReminder: append a fresh ledger record with
status scheduled, attempts 0, lastAttempt null and nextAttempt equal to the
scheduled date. -/
def scheduleReminder (s : SchedState) (invoiceId : String) (t : RType)
    (days : Option Nat) (scheduledDate : Option Nat) : SchedState :=
  (addReminder s fun rid =>
    { id := rid
      invoiceId := invoiceId
      rtype := t
      days := days
      status := RStatus.scheduled
      attempts := some 0
      scheduledDate := scheduledDate
      nextAttempt := scheduledDate
      lastAttempt := none
      sentAt := none
      failedAt := none
      cancelledAt := none
      messageId := none
      provider := none
      error := none
      reason := none
      rescheduledReason := none }).1

/-- Comparison reminderDate > currentDate of the source; false when the date
is an Invalid Date (missing due date). -/
def dateAfter (d : Option Nat) (now : Nat) : Bool :=
  match d with
  | some t => decide (now < t)
  | none => false

/-- Comparison dueDate >= currentDate of the source; false when the date is
an Invalid Date. -/
def dateAtOrAfter (d : Option Nat) (now : Nat) : Bool :=
  match d with
  | some t => decide (now ≤ t)
  | none => false

/-- ReminderScheduler.scheduleRemindersForInvoice: walk the beforeDueDays
offsets, the onDue reminder and the afterDueDays offsets, creating the
ledger records whose guard passes.  The before-due guard requires the target
to lie strictly in the future, the on-due guard requires dueDate at or after
now, and the after-due branch has no time guard at all; every branch also
consults hasReminderBeenSent on the reminderHistory snapshot taken at
entry. -/
def scheduleRemindersForInvoice (s : SchedState) (inv : Invoice)
    (settings : ReminderSettings) (now : Nat) : SchedState :=
  let hist := inv.reminderHistory
  let s1 := settings.beforeDueDays.foldl
    (fun st d =>
      let reminderDate := inv.dueDate.map fun t => t - d * 1440
      if dateAfter reminderDate now &&
          !hasReminderBeenSent hist RType.beforeDue (some d) then
        scheduleReminder st inv.id RType.beforeDue (some d) reminderDate
      else st)
    s
  let s2 :=
    if dateAtOrAfter inv.dueDate now &&
        !hasReminderBeenSent hist RType.onDue none then
      scheduleReminder s1 inv.id RType.onDue none inv.dueDate
    else s1
  settings.afterDueDays.foldl
    (fun st d =>
      let reminderDate := inv.dueDate.map fun t => t + d * 1440
      if !hasReminderBeenSent hist RType.afterDue (some d) then
        scheduleReminder st inv.id RType.afterDue (some d) reminderDate
      else st)
    s2

/-- ReminderScheduler.shouldScheduleReminders: skip paid invoices, skip
draft invoices without a due date, and skip invoices whose reminderHistory
already reached settings.maxReminders. -/
def shouldScheduleReminders (settings : ReminderSettings) (inv : Invoice) :
    Bool :=
  if inv.status = IStatus.paid then false
  else if inv.status = IStatus.draft && inv.dueDate = none then false
  else if settings.maxReminders ≤ inv.reminderHistory.length then false
  else true

/-- ReminderScheduler.scheduleRemindersForUnpaidInvoices: return unchanged
when reminders are disabled in the settings, otherwise derive reminders for
every invoice of the snapshot that passes shouldScheduleReminders.  The
embedding covers the running scheduler (the isRunning early return of the
source is the stopped-scheduler case). -/
def scheduleRemindersForUnpaidInvoices (s : SchedState) (now : Nat) :
    SchedState :=
  if !s.settings.enabled then s
  else
    s.invoices.foldl
      (fun st inv =>
        if shouldScheduleReminders s.settings inv then
          scheduleRemindersForInvoice st inv s.settings now
        else st)
      s

/-- ReminderScheduler.isWithinBusinessHours: true when gating is disabled,
otherwise compare the minute of day of now against the parsed start and end
minutes; the source comparison is inclusive at both ends
(currentTime >= startTime && currentTime <= endTime). -/
def isWithinBusinessHours (settings : ReminderSettings) (now : Nat) : Bool :=
  if !settings.businessHours.enabled then true
  else
    let currentTime := now % 1440
    let startTime :=
      settings.businessHours.startHour * 60 + settings.businessHours.startMinute
    let endTime :=
      settings.businessHours.endHour * 60 + settings.businessHours.endMinute
    decide (startTime ≤ currentTime) && decide (currentTime ≤ endTime)

/-- Start-of-business time of the next calendar day, the value
rescheduleToBusinessHours stores into nextAttempt (tomorrow at the parsed
start hour and minute). -/
def nextBusinessDayStart (settings : ReminderSettings) (now : Nat) : Nat :=
  (now / 1440 + 1) * 1440 +
    (settings.businessHours.startHour * 60 + settings.businessHours.startMinute)

/-- ReminderScheduler.rescheduleToBusinessHours: only nextAttempt and
rescheduledReason change; status and attempts are untouched. -/
def rescheduleToBusinessHours (s : SchedState) (r : Reminder) (now : Nat) :
    SchedState :=
  updateReminder s r.id fun e =>
    { e with
      nextAttempt := some (nextBusinessDayStart s.settings now)
      rescheduledReason := some "Outside business hours" }

/-- The increment reminder.attempts + 1 of the source; none embeds the
undefined attempts of a manual reminder, whose increment is NaN, a value the
source only ever feeds into comparisons that are false for it. -/
def incAttempts : Option Nat → Option Nat
  | some a => some (a + 1)
  | none => none

/-- The retry guard reminder.attempts < maxRetries of the source, evaluated
on the attempts value captured before the increment; false for the undefined
attempts of a manual reminder. -/
def shouldRetry (attempts : Option Nat) : Bool :=
  match attempts with
  | some a => decide (a < 3)
  | none => false

/-- The exponential backoff Math.pow(2, reminder.attempts) minutes computed
from the captured attempts value; only reached when shouldRetry is true, so
the none case is arbitrary. -/
def backoffMinutes : Option Nat → Nat
  | some a => 2 ^ a
  | none => 0

/-- The audit entry pushed by addToInvoiceReminderHistory. -/
def historyEntry (r : Reminder) (result : SendResult) (now : Nat) :
    HistEntry :=
  { id := r.id
    htype := r.rtype
    days := r.days
    sentAt := now
    hstatus := RStatus.sent
    messageId := result.messageId
    provider := result.provider }

/-- ReminderScheduler.addToInvoiceReminderHistory: push the audit entry onto
the reminderHistory of the captured invoice and store it back. -/
def addToInvoiceReminderHistory (s : SchedState) (inv : Invoice)
    (r : Reminder) (result : SendResult) (now : Nat) : SchedState :=
  updateInvoiceHistory s inv.id
    (inv.reminderHistory ++ [historyEntry r result now])

/-- The partial update of the invoice-not-found branch of processReminder. -/
def cancelNotFound : Reminder → Reminder := fun e =>
  { e with status := RStatus.cancelled, error := some "Invoice not found" }

/-- The partial update of the invoice-paid branch of processReminder. -/
def cancelPaid : Reminder → Reminder := fun e =>
  { e with status := RStatus.cancelled, reason := some "Invoice paid" }

/-- The partial update taken before dispatching: status pending, attempts
incremented from the captured record, lastAttempt stamped. -/
def markPending (r : Reminder) (now : Nat) : Reminder → Reminder := fun e =>
  { e with
    status := RStatus.pending
    attempts := incAttempts r.attempts
    lastAttempt := some now }

/-- The partial update of the delivery-success branch. -/
def markSent (result : SendResult) (now : Nat) : Reminder → Reminder :=
  fun e =>
  { e with
    status := RStatus.sent
    sentAt := some now
    messageId := some result.messageId
    provider := some result.provider }

/-- The partial update of the retry branch: back to scheduled with the
exponential backoff computed from the captured attempts. -/
def markRetry (r : Reminder) (now : Nat) (msg : String) :
    Reminder → Reminder := fun e =>
  { e with
    status := RStatus.scheduled
    nextAttempt := some (now + backoffMinutes r.attempts)
    error := some msg }

/-- The partial update of the attempt-cap branch. -/
def markFailed (now : Nat) (msg : String) : Reminder → Reminder := fun e =>
  { e with status := RStatus.failed, error := some msg, failedAt := some now }

/-- ReminderScheduler.processReminder, the dispatch state machine for one
reminder: cancel when the invoice is gone, cancel when the invoice is paid,
defer outside business hours, otherwise mark pending with the incremented
attempts and dispatch.  A resolving channel call (Except.ok) always takes
the sent branch; a throwing one (Except.error) takes the retry branch while
the captured attempts are below maxRetries = 3 and the failed branch
afterwards. -/
def processReminder (s : SchedState) (r : Reminder) (now : Nat)
    (res : Except String SendResult) : SchedState :=
  match getInvoice s r.invoiceId with
  | none => updateReminder s r.id cancelNotFound
  | some inv =>
    if inv.status = IStatus.paid then
      updateReminder s r.id cancelPaid
    else if !isWithinBusinessHours s.settings now then
      rescheduleToBusinessHours s r now
    else
      let s1 := updateReminder s r.id (markPending r now)
      match res with
      | Except.ok result =>
        let s2 := updateReminder s1 r.id (markSent result now)
        let s3 := addToInvoiceReminderHistory s2 inv r result now
        addNotice s3
          { ntype := "reminder-sent", invoiceId := inv.id, reminderId := r.id }
      | Except.error msg =>
        if shouldRetry r.attempts then
          updateReminder s1 r.id (markRetry r now msg)
        else
          addNotice (updateReminder s1 r.id (markFailed now msg))
            { ntype := "reminder-failed"
              invoiceId := r.invoiceId
              reminderId := r.id }

/-- The due filter of processDueReminders: status scheduled and nextAttempt
at or before now (false for a missing or invalid nextAttempt). -/
def isDue (r : Reminder) (now : Nat) : Bool :=
  decide (r.status = RStatus.scheduled) &&
    (match r.nextAttempt with
     | some t => decide (t ≤ now)
     | none => false)

/-- Sequential processing of a captured list of reminders, each one driven
through processReminder against the evolving state. -/
def processList (s : SchedState) (l : List Reminder) (now : Nat)
    (ch : Channel) : SchedState :=
  l.foldl (fun st r => processReminder st r now (ch r.invoiceId r.rtype)) s

/-- ReminderScheduler.processDueReminders: snapshot the due reminders
(status scheduled, nextAttempt elapsed) and run each through the dispatch
state machine.  The embedding covers the running scheduler. -/
def processDueReminders (s : SchedState) (now : Nat) (ch : Channel) :
    SchedState :=
  processList s (s.reminders.filter fun r => isDue r now) now ch

/-- The ledger draft sendManualReminder appends: status manual, no attempts
field, no nextAttempt field, scheduledDate now. -/
def manualDraft (invoiceId : String) (t : RType) (now : Nat) (rid : Nat) :
    Reminder :=
  { id := rid
    invoiceId := invoiceId
    rtype := t
    days := none
    status := RStatus.manual
    attempts := none
    scheduledDate := some now
    nextAttempt := none
    lastAttempt := none
    sentAt := none
    failedAt := none
    cancelledAt := none
    messageId := none
    provider := none
    error := none
    reason := none
    rescheduledReason := none }

/-- The state right after sendManualReminder appends its draft. -/
def manualState (s : SchedState) (invoiceId : String) (t : RType)
    (now : Nat) : SchedState :=
  (addReminder s (manualDraft invoiceId t now)).1

/-- ReminderScheduler.sendManualReminder: throw when the invoice is missing,
otherwise append a ledger record with status manual (no attempts field, no
nextAttempt field) and drive it through processReminder once. -/
def sendManualReminder (s : SchedState) (invoiceId : String) (t : RType)
    (now : Nat) (res : Except String SendResult) :
    Except String SchedState :=
  match getInvoice s invoiceId with
  | none => Except.error "Invoice not found"
  | some _ =>
    let p := addReminder s (manualDraft invoiceId t now)
    Except.ok (processReminder p.1 p.2 now res)

/-- ReminderScheduler.cancelScheduledReminders: cancel every reminder of the
invoice whose status is scheduled (and only those) and return the new state
together with the count of the records the filter selected.  cancelManual is
the partial update it applies. -/
def cancelManual (now : Nat) : Reminder → Reminder := fun e =>
  { e with
    status := RStatus.cancelled
    cancelledAt := some now
    reason := some "Manual cancellation" }

def cancelScheduledReminders (s : SchedState) (invoiceId : String)
    (now : Nat) : SchedState × Nat :=
  let invoiceReminders := s.reminders.filter fun r =>
    decide (r.invoiceId = invoiceId) && decide (r.status = RStatus.scheduled)
  (invoiceReminders.foldl
      (fun st r => updateReminder st r.id (cancelManual now)) s,
    invoiceReminders.length)

/-- Projection of the ledger onto the (id, invoiceId) pairs; the dispatch
state machine never creates, deletes or re-keys records, so it preserves
this list. -/
def remKeys (s : SchedState) : List (Nat × String) :=
  s.reminders.map fun e => (e.id, e.invoiceId)

/-- Projection of the invoice collection onto the (id, status) pairs; the
dispatch state machine only appends to reminderHistory, so it preserves
this list. -/
def invStatuses (s : SchedState) : List (String × IStatus) :=
  s.invoices.map fun i => (i.id, i.status)

/-- Status of an invoice as seen through getInvoice. -/
def getInvoiceStatus (s : SchedState) (invoiceId : String) : Option IStatus :=
  (getInvoice s invoiceId).map fun i => i.status

/-- Business hours configuration with gating disabled. -/
def bhOff : BusinessHours :=
  { enabled := false, startHour := 9, startMinute := 0,
    endHour := 17, endMinute := 0 }

/-- Business hours 09:00 to 17:00 with gating enabled. -/
def bhOn : BusinessHours :=
  { enabled := true, startHour := 9, startMinute := 0,
    endHour := 17, endMinute := 0 }

/-- Simple settings: one before-due offset of 7 days, gating disabled. -/
def set1 : ReminderSettings :=
  { enabled := true, beforeDueDays := [7], afterDueDays := [],
    maxReminders := 5, businessHours := bhOff }

/-- An unpaid invoice due at minute 20000 with an empty history. -/
def inv1 : Invoice :=
  { id := "INV-1", status := IStatus.sent, dueDate := some 20000,
    reminderHistory := [] }

/-- Initial state holding only inv1 and an empty ledger. -/
def s1 : SchedState :=
  { invoices := [inv1], reminders := [], settings := set1, nextId := 1,
    notices := [] }

/-- A channel whose calls always resolve successfully. -/
def chOk : Channel := fun _ _ =>
  Except.ok { success := true, messageId := "mid", provider := "test" }

/-- A channel whose calls always throw. -/
def chFail : Channel := fun _ _ =>
  Except.error "SMTP configuration incomplete"

/-- A baseline scheduled ledger record used to build concrete states. -/
def rBase : Reminder :=
  { id := 1, invoiceId := "INV-3", rtype := RType.beforeDue, days := some 7,
    status := RStatus.scheduled, attempts := some 0, scheduledDate := some 500,
    nextAttempt := some 500, lastAttempt := none, sentAt := none,
    failedAt := none, cancelledAt := none, messageId := none, provider := none,
    error := none, reason := none, rescheduledReason := none }

/-- C1: the state after running derivation twice on s1 at time 0 with no
intervening change. -/
def s1twice : SchedState :=
  scheduleRemindersForUnpaidInvoices (scheduleRemindersForUnpaidInvoices s1 0) 0

/-- A paid invoice used by the C3 scenarios. -/
def inv3 : Invoice :=
  { id := "INV-3", status := IStatus.paid, dueDate := some 10580,
    reminderHistory := [] }

/-- State with the paid invoice inv3 and one scheduled reminder that first
comes due at minute 500. -/
def s3 : SchedState :=
  { invoices := [inv3], reminders := [rBase], settings := set1, nextId := 2,
    notices := [] }

/-- An unpaid invoice used by the retry scenarios. -/
def inv4 : Invoice :=
  { id := "INV-4", status := IStatus.sent, dueDate := some 99999,
    reminderHistory := [] }

/-- A scheduled reminder of inv4, due from minute 0, zero attempts. -/
def r4 : Reminder :=
  { rBase with
    invoiceId := "INV-4"
    nextAttempt := some 0
    scheduledDate := some 0 }

/-- State for the retry scenarios. -/
def s4 : SchedState :=
  { invoices := [inv4], reminders := [r4], settings := set1, nextId := 2,
    notices := [] }

/-- State after one processDue() cycle against the always-failing channel. -/
def s4c1 : SchedState := processDueReminders s4 0 chFail

/-- State after two cycles. -/
def s4c2 : SchedState := processDueReminders s4c1 10 chFail

/-- State after three cycles. -/
def s4c3 : SchedState := processDueReminders s4c2 20 chFail

/-- State after four cycles. -/
def s4c4 : SchedState := processDueReminders s4c3 30 chFail

/-- Minutes-since-epoch timestamp of midnight of October d, 2024, taking the
epoch to be midnight of January 1, 2024 (2024 is a leap year, so October 1
is day 274 of the year, index 273 from zero). -/
def octDay (d : Nat) : Nat := (273 + d) * 1440

/-- The policy of the worked example of C5. -/
def set5 : ReminderSettings :=
  { enabled := true, beforeDueDays := [7, 3], afterDueDays := [1, 7],
    maxReminders := 10, businessHours := bhOff }

/-- The unpaid invoice of the worked example, due October 10, 2024. -/
def inv5 : Invoice :=
  { id := "INV-5", status := IStatus.sent, dueDate := some (octDay 10),
    reminderHistory := [] }

/-- Initial state of the worked example: empty ledger, empty history. -/
def s5 : SchedState :=
  { invoices := [inv5], reminders := [], settings := set5, nextId := 1,
    notices := [] }

/-- Settings with business-hours gating enabled 09:00 to 17:00. -/
def set6 : ReminderSettings :=
  { enabled := true, beforeDueDays := [7], afterDueDays := [],
    maxReminders := 5, businessHours := bhOn }

/-- An unpaid invoice used by the gating scenarios. -/
def inv6 : Invoice :=
  { id := "INV-6", status := IStatus.sent, dueDate := some 99999,
    reminderHistory := [] }

/-- A scheduled reminder of inv6, due from minute 0. -/
def r6 : Reminder :=
  { rBase with
    invoiceId := "INV-6"
    nextAttempt := some 0
    scheduledDate := some 0 }

/-- State for the gating scenarios. -/
def s6 : SchedState :=
  { invoices := [inv6], reminders := [r6], settings := set6, nextId := 2,
    notices := [] }

/-- Settings with one after-due offset; used by the C7 scenario. -/
def set7 : ReminderSettings :=
  { enabled := true, beforeDueDays := [7], afterDueDays := [1],
    maxReminders := 5, businessHours := bhOff }

/-- A non-draft invoice carrying NO due date. -/
def inv7 : Invoice :=
  { id := "INV-7", status := IStatus.sent, dueDate := none,
    reminderHistory := [] }

/-- State for the C7 scenario. -/
def s7 : SchedState :=
  { invoices := [inv7], reminders := [], settings := set7, nextId := 1,
    notices := [] }

/-- A pending (in-flight) reminder of the invoice of the C8 scenario. -/
def r8 : Reminder :=
  { rBase with invoiceId := "INV-8", status := RStatus.pending }

/-- State for the C8 scenario: one pending reminder, nothing scheduled. -/
def s8 : SchedState :=
  { invoices := [], reminders := [r8], settings := set1, nextId := 2,
    notices := [] }

/-- State with one scheduled and one pending reminder of the same invoice,
used by the C8 witness. -/
def s8w : SchedState :=
  { invoices := [], reminders := [rBase, { r8 with invoiceId := "INV-3" }],
    settings := set1, nextId := 3, notices := [] }

/-- A resolved channel result carrying success = false. -/
def sr0 : SendResult := { success := false, messageId := "m0", provider := "p0" }

/-- An unpaid invoice used by the manual-reminder scenarios. -/
def inv9 : Invoice :=
  { id := "INV-9", status := IStatus.sent, dueDate := some 99999,
    reminderHistory := [] }

/-- State for the manual-reminder scenarios: gating enabled 09:00-17:00,
empty ledger. -/
def s9 : SchedState :=
  { invoices := [inv9], reminders := [], settings := set6, nextId := 1,
    notices := [] }

theorem find?_map_pred {α : Type} (l : List α) (g : α → α) (p : α → Bool)
    (hg : ∀ a, p (g a) = p a) :
    (l.map g).find? p = (l.find? p).map g := by
  induction l with
  | nil => rfl
  | cons a l ih =>
    by_cases h : p a = true
    · simp [List.find?, hg a, h]
    · simp only [Bool.not_eq_true] at h
      simp [List.find?, hg a, h, ih]

theorem mem_updateReminder {s : SchedState} {rid : Nat}
    {f : Reminder → Reminder} {e' : Reminder} :
    e' ∈ (updateReminder s rid f).reminders ↔
      ∃ e ∈ s.reminders, e' = if e.id = rid then f e else e := by
  simp only [updateReminder, List.mem_map]
  constructor
  · rintro ⟨e, he, rfl⟩; exact ⟨e, he, rfl⟩
  · rintro ⟨e, he, rfl⟩; exact ⟨e, he, rfl⟩

theorem remKeys_updateReminder {s : SchedState} {rid : Nat}
    {f : Reminder → Reminder}
    (hf : ∀ e, ((f e).id, (f e).invoiceId) = (e.id, e.invoiceId)) :
    remKeys (updateReminder s rid f) = remKeys s := by
  simp only [remKeys, updateReminder, List.map_map]
  apply List.map_congr_left
  intro e _
  by_cases h : e.id = rid <;> simp [Function.comp, h, hf e]

theorem invoices_updateReminder (s : SchedState) (rid : Nat)
    (f : Reminder → Reminder) :
    (updateReminder s rid f).invoices = s.invoices := rfl

theorem reminders_updateInvoiceHistory (s : SchedState) (invoiceId : String)
    (hist : List HistEntry) :
    (updateInvoiceHistory s invoiceId hist).reminders = s.reminders := rfl

theorem reminders_addNotice (s : SchedState) (n : Notice) :
    (addNotice s n).reminders = s.reminders := rfl

theorem invoices_addNotice (s : SchedState) (n : Notice) :
    (addNotice s n).invoices = s.invoices := rfl

theorem invStatuses_updateInvoiceHistory (s : SchedState) (invoiceId : String)
    (hist : List HistEntry) :
    invStatuses (updateInvoiceHistory s invoiceId hist) = invStatuses s := by
  simp only [invStatuses, updateInvoiceHistory, List.map_map]
  apply List.map_congr_left
  intro i _
  by_cases h : i.id = invoiceId <;> simp [Function.comp, h]

theorem getInvoice_eq_of_invStatuses_aux (s : SchedState) (invoiceId : String) :
    getInvoiceStatus s invoiceId =
      ((invStatuses s).find? fun p => p.1 = invoiceId).map fun p => p.2 := by
  simp only [getInvoiceStatus, getInvoice, invStatuses]
  rw [List.find?_map, Option.map_map]
  rfl

theorem getInvoiceStatus_congr {s s' : SchedState}
    (h : invStatuses s' = invStatuses s) (invoiceId : String) :
    getInvoiceStatus s' invoiceId = getInvoiceStatus s invoiceId := by
  rw [getInvoice_eq_of_invStatuses_aux, getInvoice_eq_of_invStatuses_aux, h]

theorem processReminder_cases (s : SchedState) (r : Reminder) (now : Nat)
    (res : Except String SendResult) :
    (getInvoice s r.invoiceId = none ∧
      processReminder s r now res = updateReminder s r.id cancelNotFound) ∨
    (∃ inv, getInvoice s r.invoiceId = some inv ∧
      inv.status = IStatus.paid ∧
      processReminder s r now res = updateReminder s r.id cancelPaid) ∨
    (∃ inv, getInvoice s r.invoiceId = some inv ∧
      inv.status ≠ IStatus.paid ∧
      isWithinBusinessHours s.settings now = false ∧
      processReminder s r now res = rescheduleToBusinessHours s r now) ∨
    (∃ inv result, getInvoice s r.invoiceId = some inv ∧
      inv.status ≠ IStatus.paid ∧
      isWithinBusinessHours s.settings now = true ∧
      res = Except.ok result ∧
      processReminder s r now res =
        addNotice
          (addToInvoiceReminderHistory
            (updateReminder (updateReminder s r.id (markPending r now)) r.id
              (markSent result now))
            inv r result now)
          { ntype := "reminder-sent", invoiceId := inv.id,
            reminderId := r.id }) ∨
    (∃ inv msg, getInvoice s r.invoiceId = some inv ∧
      inv.status ≠ IStatus.paid ∧
      isWithinBusinessHours s.settings now = true ∧
      res = Except.error msg ∧ shouldRetry r.attempts = true ∧
      processReminder s r now res =
        updateReminder (updateReminder s r.id (markPending r now)) r.id
          (markRetry r now msg)) ∨
    (∃ inv msg, getInvoice s r.invoiceId = some inv ∧
      inv.status ≠ IStatus.paid ∧
      isWithinBusinessHours s.settings now = true ∧
      res = Except.error msg ∧ shouldRetry r.attempts = false ∧
      processReminder s r now res =
        addNotice
          (updateReminder (updateReminder s r.id (markPending r now)) r.id
            (markFailed now msg))
          { ntype := "reminder-failed", invoiceId := r.invoiceId,
            reminderId := r.id }) := by
  cases hinv : getInvoice s r.invoiceId with
  | none =>
    exact Or.inl ⟨rfl, by simp only [processReminder, hinv]⟩
  | some inv =>
    by_cases hp : inv.status = IStatus.paid
    · exact Or.inr (Or.inl ⟨inv, rfl, hp, by simp only [processReminder, hinv, hp, if_true]⟩)
    · cases hb : isWithinBusinessHours s.settings now with
      | false =>
        refine Or.inr (Or.inr (Or.inl ⟨inv, rfl, hp, rfl, ?_⟩))
        simp only [processReminder, hinv, hp, if_false, hb, Bool.not_false, if_true]
      | true =>
        cases res with
        | ok result =>
          refine Or.inr (Or.inr (Or.inr (Or.inl ⟨inv, result, rfl, hp, rfl, rfl, ?_⟩)))
          simp only [processReminder, hinv, hp, if_false, hb, Bool.not_true, Bool.false_eq_true]
        | error msg =>
          cases hr : shouldRetry r.attempts with
          | true =>
            refine Or.inr (Or.inr (Or.inr (Or.inr (Or.inl
              ⟨inv, msg, rfl, hp, rfl, rfl, rfl, ?_⟩))))
            simp only [processReminder, hinv, hp, if_false, hb, Bool.not_true, Bool.false_eq_true, hr, if_true]
          | false =>
            refine Or.inr (Or.inr (Or.inr (Or.inr (Or.inr
              ⟨inv, msg, rfl, hp, rfl, rfl, rfl, ?_⟩))))
            simp only [processReminder, hinv, hp, if_false, hb, Bool.not_true, Bool.false_eq_true, hr, if_false]

theorem remKeys_addNotice (s : SchedState) (n : Notice) :
    remKeys (addNotice s n) = remKeys s := rfl

theorem remKeys_updateInvoiceHistory (s : SchedState) (invoiceId : String)
    (hist : List HistEntry) :
    remKeys (updateInvoiceHistory s invoiceId hist) = remKeys s := rfl

theorem invStatuses_addNotice (s : SchedState) (n : Notice) :
    invStatuses (addNotice s n) = invStatuses s := rfl

theorem invStatuses_updateReminder (s : SchedState) (rid : Nat)
    (f : Reminder → Reminder) :
    invStatuses (updateReminder s rid f) = invStatuses s := rfl

theorem remKeys_processReminder (s : SchedState) (r : Reminder) (now : Nat)
    (res : Except String SendResult) :
    remKeys (processReminder s r now res) = remKeys s := by
  rcases processReminder_cases s r now res with
    ⟨hinv, heq⟩ | ⟨inv, hinv, hp, heq⟩ | ⟨inv, hinv, hp, hb, heq⟩ |
    ⟨inv, result, hinv, hp, hb, hres, heq⟩ |
    ⟨inv, msg, hinv, hp, hb, hres, hrt, heq⟩ |
    ⟨inv, msg, hinv, hp, hb, hres, hrt, heq⟩ <;> rw [heq]
  · exact remKeys_updateReminder fun e => rfl
  · exact remKeys_updateReminder fun e => rfl
  · exact remKeys_updateReminder fun e => rfl
  · rw [remKeys_addNotice, addToInvoiceReminderHistory,
      remKeys_updateInvoiceHistory]
    exact (remKeys_updateReminder (f := markSent result now) fun e => rfl).trans
      (remKeys_updateReminder (f := markPending r now) fun e => rfl)
  · exact (remKeys_updateReminder (f := markRetry r now msg) fun e => rfl).trans
      (remKeys_updateReminder (f := markPending r now) fun e => rfl)
  · rw [remKeys_addNotice]
    exact (remKeys_updateReminder (f := markFailed now msg) fun e => rfl).trans
      (remKeys_updateReminder (f := markPending r now) fun e => rfl)

theorem invStatuses_processReminder (s : SchedState) (r : Reminder)
    (now : Nat) (res : Except String SendResult) :
    invStatuses (processReminder s r now res) = invStatuses s := by
  rcases processReminder_cases s r now res with
    ⟨hinv, heq⟩ | ⟨inv, hinv, hp, heq⟩ | ⟨inv, hinv, hp, hb, heq⟩ |
    ⟨inv, result, hinv, hp, hb, hres, heq⟩ |
    ⟨inv, msg, hinv, hp, hb, hres, hrt, heq⟩ |
    ⟨inv, msg, hinv, hp, hb, hres, hrt, heq⟩ <;> rw [heq]
  · exact invStatuses_updateReminder ..
  · exact invStatuses_updateReminder ..
  · exact invStatuses_updateReminder ..
  · rw [invStatuses_addNotice, addToInvoiceReminderHistory,
      invStatuses_updateInvoiceHistory]
    rfl
  · rfl
  · rfl

theorem processReminder_mem_cases {s : SchedState} {r : Reminder} {now : Nat}
    {res : Except String SendResult} {e' : Reminder}
    (he' : e' ∈ (processReminder s r now res).reminders) :
    ∃ e ∈ s.reminders, e'.id = e.id ∧ e'.invoiceId = e.invoiceId ∧
      (e.id ≠ r.id → e' = e) ∧
      (e'.status = RStatus.sent →
        e.status = RStatus.sent ∨
        (e.id = r.id ∧ ∃ inv result, getInvoice s r.invoiceId = some inv ∧
          inv.status ≠ IStatus.paid ∧ res = Except.ok result)) := by
  rcases processReminder_cases s r now res with
    ⟨hinv, heq⟩ | ⟨inv, hinv, hp, heq⟩ | ⟨inv, hinv, hp, hb, heq⟩ |
    ⟨inv, result, hinv, hp, hb, hres, heq⟩ |
    ⟨inv, msg, hinv, hp, hb, hres, hrt, heq⟩ |
    ⟨inv, msg, hinv, hp, hb, hres, hrt, heq⟩
  · rw [heq] at he'
    rcases mem_updateReminder.mp he' with ⟨e, he, rfl⟩
    by_cases hid : e.id = r.id
    · refine ⟨e, he, by simp [hid, cancelNotFound], by simp [hid, cancelNotFound],
        fun h => absurd hid h, fun h => ?_⟩
      simp [hid, cancelNotFound] at h
    · exact ⟨e, he, by simp [hid], by simp [hid], fun _ => by simp [hid],
        fun h => Or.inl (by simpa [hid] using h)⟩
  · rw [heq] at he'
    rcases mem_updateReminder.mp he' with ⟨e, he, rfl⟩
    by_cases hid : e.id = r.id
    · refine ⟨e, he, by simp [hid, cancelPaid], by simp [hid, cancelPaid],
        fun h => absurd hid h, fun h => ?_⟩
      simp [hid, cancelPaid] at h
    · exact ⟨e, he, by simp [hid], by simp [hid], fun _ => by simp [hid],
        fun h => Or.inl (by simpa [hid] using h)⟩
  · rw [heq] at he'
    rw [rescheduleToBusinessHours] at he'
    rcases mem_updateReminder.mp he' with ⟨e, he, rfl⟩
    by_cases hid : e.id = r.id
    · exact ⟨e, he, by simp [hid], by simp [hid], fun h => absurd hid h,
        fun h => Or.inl (by simpa [hid] using h)⟩
    · exact ⟨e, he, by simp [hid], by simp [hid], fun _ => by simp [hid],
        fun h => Or.inl (by simpa [hid] using h)⟩
  · rw [heq] at he'
    rw [reminders_addNotice, addToInvoiceReminderHistory,
      reminders_updateInvoiceHistory] at he'
    rcases mem_updateReminder.mp he' with ⟨e1, he1, rfl⟩
    rcases mem_updateReminder.mp he1 with ⟨e, he, rfl⟩
    by_cases hid : e.id = r.id
    · refine ⟨e, he, by simp [hid, markPending, markSent],
        by simp [hid, markPending, markSent], fun h => absurd hid h,
        fun _ => Or.inr ⟨hid, inv, result, hinv, hp, hres⟩⟩
    · exact ⟨e, he, by simp [hid], by simp [hid], fun _ => by simp [hid],
        fun h => Or.inl (by simpa [hid] using h)⟩
  · rw [heq] at he'
    rcases mem_updateReminder.mp he' with ⟨e1, he1, rfl⟩
    rcases mem_updateReminder.mp he1 with ⟨e, he, rfl⟩
    by_cases hid : e.id = r.id
    · refine ⟨e, he, by simp [hid, markPending, markRetry],
        by simp [hid, markPending, markRetry], fun h => absurd hid h,
        fun h => ?_⟩
      simp [hid, markPending, markRetry] at h
    · exact ⟨e, he, by simp [hid], by simp [hid], fun _ => by simp [hid],
        fun h => Or.inl (by simpa [hid] using h)⟩
  · rw [heq] at he'
    rw [reminders_addNotice] at he'
    rcases mem_updateReminder.mp he' with ⟨e1, he1, rfl⟩
    rcases mem_updateReminder.mp he1 with ⟨e, he, rfl⟩
    by_cases hid : e.id = r.id
    · refine ⟨e, he, by simp [hid, markPending, markFailed],
        by simp [hid, markPending, markFailed], fun h => absurd hid h,
        fun h => ?_⟩
      simp [hid, markPending, markFailed] at h
    · exact ⟨e, he, by simp [hid], by simp [hid], fun _ => by simp [hid],
        fun h => Or.inl (by simpa [hid] using h)⟩

theorem processList_cons (s : SchedState) (r : Reminder) (l : List Reminder)
    (now : Nat) (ch : Channel) :
    processList s (r :: l) now ch =
      processList (processReminder s r now (ch r.invoiceId r.rtype)) l now ch :=
  rfl

theorem processList_nil (s : SchedState) (now : Nat) (ch : Channel) :
    processList s [] now ch = s := rfl

theorem remKeys_processList (l : List Reminder) (now : Nat) (ch : Channel) :
    ∀ s : SchedState, remKeys (processList s l now ch) = remKeys s := by
  induction l with
  | nil => intro s; rfl
  | cons r l ih =>
    intro s
    rw [processList_cons, ih, remKeys_processReminder]

theorem invStatuses_processList (l : List Reminder) (now : Nat)
    (ch : Channel) :
    ∀ s : SchedState, invStatuses (processList s l now ch) = invStatuses s := by
  induction l with
  | nil => intro s; rfl
  | cons r l ih =>
    intro s
    rw [processList_cons, ih, invStatuses_processReminder]

theorem processList_mem_ne (l : List Reminder) (now : Nat) (ch : Channel)
    (rid : Nat) (hl : ∀ r0 ∈ l, rid ≠ r0.id) :
    ∀ s : SchedState, ∀ e' ∈ (processList s l now ch).reminders,
      e'.id = rid → e' ∈ s.reminders := by
  induction l with
  | nil => intro s e' he' _; exact he'
  | cons r l ih =>
    intro s e' he' hid
    rw [processList_cons] at he'
    have h1 : e' ∈ (processReminder s r now (ch r.invoiceId r.rtype)).reminders :=
      ih (fun r0 h0 => hl r0 (List.mem_cons_of_mem r h0)) _ e' he' hid
    rcases processReminder_mem_cases h1 with ⟨e, he, hide, _, huntouched, _⟩
    have hne : e.id ≠ r.id := by
      rw [← hide, hid]
      exact hl r (List.mem_cons_self r l)
    rw [huntouched hne]
    exact he

/-- Two ledger records with the same id agree on their invoice when the key
projection is preserved from a state whose ids are distinct. -/
theorem key_consistency {s s0 : SchedState} {r : Reminder}
    (hkeys : remKeys s = remKeys s0)
    (hnodup : (s0.reminders.map fun e => e.id).Nodup)
    (hr : r ∈ s0.reminders) :
    ∀ e ∈ s.reminders, e.id = r.id → e.invoiceId = r.invoiceId := by
  intro e he heid
  have hm : (e.id, e.invoiceId) ∈ remKeys s0 := by
    rw [← hkeys]
    exact List.mem_map_of_mem _ he
  rcases List.mem_map.mp hm with ⟨e0, he0, heq⟩
  have hid0 : e0.id = e.id := congrArg Prod.fst heq
  have hinv0 : e0.invoiceId = e.invoiceId := congrArg Prod.snd heq
  have : e0 = r :=
    List.inj_on_of_nodup_map hnodup he0 hr (by rw [hid0, heid])
  rw [← hinv0, this]

/-- Processing any list of captured reminders creates no sent reminder of an
invoice that is paid, provided none of its reminders was sent already. -/
theorem processList_no_sent_aux (s0 : SchedState) (invId : String) (now : Nat)
    (ch : Channel)
    (hnodup : (s0.reminders.map fun e => e.id).Nodup)
    (hpaid : getInvoiceStatus s0 invId = some IStatus.paid) :
    ∀ l : List Reminder, (∀ r ∈ l, r ∈ s0.reminders) →
      ∀ s : SchedState, remKeys s = remKeys s0 →
        invStatuses s = invStatuses s0 →
        (∀ e ∈ s.reminders, e.invoiceId = invId → e.status ≠ RStatus.sent) →
        ∀ e' ∈ (processList s l now ch).reminders, e'.invoiceId = invId →
          e'.status ≠ RStatus.sent := by
  intro l
  induction l with
  | nil => intro _ s _ _ hns e' he' hi; exact hns e' he' hi
  | cons r l ih =>
    intro hl s hkeys hstat hns
    rw [processList_cons]
    apply ih (fun r0 h0 => hl r0 (List.mem_cons_of_mem r h0))
    · rw [remKeys_processReminder]; exact hkeys
    · rw [invStatuses_processReminder]; exact hstat
    · intro e he hei hsent
      rcases processReminder_mem_cases he with ⟨e0, he0, _, hinv, _, hsentc⟩
      rcases hsentc hsent with h0 | ⟨hidr, inv, result, hinvr, hp, _⟩
      · exact hns e0 he0 (hinv ▸ hei) h0
      · have hkey := key_consistency hkeys hnodup
          (hl r (List.mem_cons_self r l)) e0 he0 hidr
        have hri : r.invoiceId = invId :=
          (hkey.symm.trans hinv.symm).trans hei
        have hstatr : getInvoiceStatus s r.invoiceId = some IStatus.paid := by
          rw [hri, getInvoiceStatus_congr hstat]
          exact hpaid
        simp only [getInvoiceStatus, hinvr, Option.map_some',
          Option.some.injEq] at hstatr
        exact hp hstatr

/-- Every captured reminder of a paid invoice that the list processes ends
cancelled with the invoice-paid reason, provided the listed ids are
distinct. -/
theorem processList_cancel_aux (s0 : SchedState) (invId : String) (now : Nat)
    (ch : Channel)
    (hnodup : (s0.reminders.map fun e => e.id).Nodup)
    (hpaid : getInvoiceStatus s0 invId = some IStatus.paid) :
    ∀ l : List Reminder, (∀ r ∈ l, r ∈ s0.reminders) →
      (l.map fun e => e.id).Nodup →
      ∀ s : SchedState, remKeys s = remKeys s0 →
        invStatuses s = invStatuses s0 →
        ∀ r ∈ l, r.invoiceId = invId →
          ∀ e' ∈ (processList s l now ch).reminders, e'.id = r.id →
            e'.status = RStatus.cancelled ∧ e'.reason = some "Invoice paid" := by
  intro l
  induction l with
  | nil => intro _ _ s _ _ r hr; exact absurd hr (List.not_mem_nil r)
  | cons r0 l ih =>
    intro hl hnl s hkeys hstat r hr hri e' he' hide
    rw [processList_cons] at he'
    rw [List.map_cons, List.nodup_cons] at hnl
    rcases List.mem_cons.mp hr with rfl | hrtail
    · have hstatr : getInvoiceStatus s r.invoiceId = some IStatus.paid := by
        rw [hri, getInvoiceStatus_congr hstat]
        exact hpaid
      have heq : processReminder s r now (ch r.invoiceId r.rtype) =
          updateReminder s r.id cancelPaid := by
        rcases hinv : getInvoice s r.invoiceId with _ | inv
        · rw [getInvoiceStatus, hinv] at hstatr
          simp at hstatr
        · have hp : inv.status = IStatus.paid := by
            simp only [getInvoiceStatus, hinv, Option.map_some',
              Option.some.injEq] at hstatr
            exact hstatr
          simp only [processReminder, hinv, hp, if_true]
      rw [heq] at he'
      have hnotin : ∀ rr ∈ l, r.id ≠ rr.id := by
        intro rr hrr heqid
        exact hnl.1 (heqid ▸ List.mem_map_of_mem _ hrr)
      have hmem : e' ∈ (updateReminder s r.id cancelPaid).reminders :=
        processList_mem_ne l now ch r.id hnotin _ e' he' hide
      rcases mem_updateReminder.mp hmem with ⟨e, he, rfl⟩
      by_cases hid : e.id = r.id
      · simp [hid, cancelPaid]
      · simp only [if_neg hid] at hide
        exact absurd hide hid
    · exact ih (fun rr h0 => hl rr (List.mem_cons_of_mem r0 h0)) hnl.2
        (processReminder s r0 now (ch r0.invoiceId r0.rtype))
        ((remKeys_processReminder ..).trans hkeys)
        ((invStatuses_processReminder ..).trans hstat)
        r hrtail hri e' he' hide

/-- C1 — Reminder derivation is idempotent: running derivation twice with
unchanged invoice, ledger and policy state must produce the same reminder
set as running it once, with no two reminders sharing a composite key.  The
code violates this: hasReminderBeenSent consults only the sent entries of
invoice.reminderHistory, never the existing ledger records, so the second
run re-creates every not-yet-sent reminder.  At the concrete input below,
one run creates two reminders and the second run duplicates both composite
keys (INV-1, beforeDue, 7) and (INV-1, onDue). -/
theorem C1_rederivation_duplicates_keys :
    (scheduleRemindersForUnpaidInvoices s1 0).reminders.map
        (fun e => (e.invoiceId, e.rtype, e.days)) =
      [("INV-1", RType.beforeDue, some 7), ("INV-1", RType.onDue, none)] ∧
    s1twice.reminders.map (fun e => (e.invoiceId, e.rtype, e.days)) =
      [("INV-1", RType.beforeDue, some 7), ("INV-1", RType.onDue, none),
       ("INV-1", RType.beforeDue, some 7), ("INV-1", RType.onDue, none)] ∧
    s1twice.reminders.length ≠
      (scheduleRemindersForUnpaidInvoices s1 0).reminders.length := by
  refine ⟨by decide, by decide, by decide⟩

/-- C2 — No double-send: after processDue() calls, every invoice must hold
at most one reminderHistory entry per composite key.  Because derivation is
not idempotent, a state the code itself reaches (derivation run twice over
an unchanged unpaid invoice) holds two scheduled reminders with the key
(INV-1, beforeDue, 7); one processDue() pass over them appends two history
entries with that same key. -/
theorem C2_rederivation_double_send :
    (processDueReminders s1twice 10000 chOk).invoices.map
        (fun i => i.reminderHistory.map fun e => (e.htype, e.days)) =
      [[(RType.beforeDue, some 7), (RType.beforeDue, some 7)]] := by
  decide

/-- C3 counterexample — the claim states that the next processDue() call
after the invoice becomes paid cancels ALL of its non-terminal reminders.
At time 100 the reminder of the paid invoice INV-3 is scheduled but not yet
due (nextAttempt 500), so processDue() does not touch it: it stays in the
non-terminal scheduled status instead of becoming cancelled. -/
theorem C3_counterexample_not_yet_due_reminder_survives :
    inv3.status = IStatus.paid ∧
    (processDueReminders s3 100 chOk).reminders.map (fun e => e.status) =
      [RStatus.scheduled] ∧
    RStatus.scheduled ≠ RStatus.cancelled := by
  refine ⟨rfl, by decide, by decide⟩

/-- C3 — paid short-circuit, amended: while an invoice is paid (and none of
its reminders is already sent), no reminder of that invoice ever reaches the
sent status through processDue(); and every reminder of that invoice that is
due (scheduled with an elapsed nextAttempt) is cancelled by the call with
reason Invoice paid.  Reminders not yet due merely stay scheduled until they
come due. -/
theorem C3_paid_short_circuit (s : SchedState) (invId : String) (now : Nat)
    (ch : Channel)
    (hnodup : (s.reminders.map fun e => e.id).Nodup)
    (hpaid : getInvoiceStatus s invId = some IStatus.paid)
    (hnosent : ∀ e ∈ s.reminders, e.invoiceId = invId →
      e.status ≠ RStatus.sent) :
    (∀ e ∈ (processDueReminders s now ch).reminders, e.invoiceId = invId →
      e.status ≠ RStatus.sent) ∧
    (∀ r ∈ s.reminders, r.invoiceId = invId → r.status = RStatus.scheduled →
      ∀ t, r.nextAttempt = some t → t ≤ now →
        ∀ e ∈ (processDueReminders s now ch).reminders, e.id = r.id →
          e.status = RStatus.cancelled ∧ e.reason = some "Invoice paid") := by
  constructor
  · intro e he hi
    exact processList_no_sent_aux s invId now ch hnodup hpaid
      (s.reminders.filter fun r => isDue r now)
      (fun r hr => (List.mem_filter.mp hr).1) s rfl rfl hnosent e he hi
  · intro r hr hri hsch t hna hle e he hide
    have hdue : isDue r now = true := by
      simp [isDue, hsch, hna, hle]
    have hnodupl :
        (((s.reminders.filter fun r => isDue r now).map fun e => e.id)).Nodup :=
      hnodup.sublist (List.Sublist.map _ (List.filter_sublist s.reminders))
    exact processList_cancel_aux s invId now ch hnodup hpaid
      (s.reminders.filter fun r => isDue r now)
      (fun r0 h0 => (List.mem_filter.mp h0).1) hnodupl s rfl rfl r
      (List.mem_filter.mpr ⟨hr, hdue⟩) hri e he hide

/-- C3 witness: the amended theorem applied to the concrete paid-invoice
state s3 at time 600, when the reminder is due. -/
theorem C3_paid_short_circuit_witness :
    ((s3.reminders.map fun e => e.id).Nodup ∧
      getInvoiceStatus s3 "INV-3" = some IStatus.paid) ∧
    ((∀ e ∈ (processDueReminders s3 600 chOk).reminders,
        e.invoiceId = "INV-3" → e.status ≠ RStatus.sent) ∧
      (∀ r ∈ s3.reminders, r.invoiceId = "INV-3" →
        r.status = RStatus.scheduled →
        ∀ t, r.nextAttempt = some t → t ≤ 600 →
          ∀ e ∈ (processDueReminders s3 600 chOk).reminders, e.id = r.id →
            e.status = RStatus.cancelled ∧ e.reason = some "Invoice paid")) :=
  ⟨⟨by decide, by decide⟩,
    C3_paid_short_circuit s3 "INV-3" 600 chOk (by decide) (by decide)
      (by decide)⟩

/-- C4 counterexample — the claim states that with an always-failing channel
the reminder is failed with attempts = 3 after 3 processDue() cycles and
that a reminder with attempts >= 3 is never attempted again.  In the code
the retry guard compares the attempts value captured BEFORE the increment,
so after 3 cycles the reminder is still scheduled with attempts = 3; a
fourth real attempt happens and only then does it fail, with attempts = 4.
The successive nextAttempt values 0, 1, 12, 24 also exhibit the strictly
increasing backoff of 2^0, 2^1, 2^2 minutes, and the reminderHistory stays
empty throughout. -/
theorem C4_counterexample_three_cycles_not_failed :
    s4c3.reminders.map (fun e => (e.status, e.attempts, e.nextAttempt)) =
      [(RStatus.scheduled, some 3, some 24)] ∧
    RStatus.scheduled ≠ RStatus.failed ∧
    s4c1.reminders.map (fun e => e.nextAttempt) = [some 1] ∧
    s4c2.reminders.map (fun e => e.nextAttempt) = [some 12] ∧
    s4c4.reminders.map (fun e => (e.status, e.attempts, e.failedAt)) =
      [(RStatus.failed, some 4, some 30)] ∧
    s4c4.invoices.map (fun i => i.reminderHistory) = [[]] := by
  refine ⟨by decide, by decide, by decide, by decide, by decide, by decide⟩

/-- C4 — retry with backoff and attempt cap, amended: when dispatch of a due
reminder throws and the captured pre-attempt count is a, the stored attempts
become a + 1; if a < 3 the reminder reverts to scheduled with nextAttemptAt
= now + 2^a minutes (strictly later than the elapsed previous nextAttemptAt)
and the error stored; if a >= 3 it becomes failed with failedAt = now.  A
reminder therefore fails after its fourth real attempt, with attempts = 4,
not after the third. -/
theorem C4_failure_retry_and_cap (s : SchedState) (r : Reminder)
    (now a : Nat) (inv : Invoice) (msg : String)
    (hinv : getInvoice s r.invoiceId = some inv)
    (hnp : inv.status ≠ IStatus.paid)
    (hbh : isWithinBusinessHours s.settings now = true)
    (ha : r.attempts = some a) :
    ∀ e ∈ (processReminder s r now (Except.error msg)).reminders,
      e.id = r.id →
      (a < 3 →
        e.status = RStatus.scheduled ∧ e.attempts = some (a + 1) ∧
        e.nextAttempt = some (now + 2 ^ a) ∧ e.error = some msg ∧
        ∀ t, r.nextAttempt = some t → t ≤ now → t < now + 2 ^ a) ∧
      (3 ≤ a →
        e.status = RStatus.failed ∧ e.attempts = some (a + 1) ∧
        e.failedAt = some now ∧ e.error = some msg) := by
  intro e' he' hid
  by_cases hlt : a < 3
  · have hsr : shouldRetry r.attempts = true := by
      rw [ha]; simp [shouldRetry, hlt]
    have heq : processReminder s r now (Except.error msg) =
        updateReminder (updateReminder s r.id (markPending r now)) r.id
          (markRetry r now msg) := by
      simp only [processReminder, hinv, hnp, if_false, hbh, Bool.not_true,
        Bool.false_eq_true, hsr, if_true]
    rw [heq] at he'
    rcases mem_updateReminder.mp he' with ⟨e1, he1, rfl⟩
    rcases mem_updateReminder.mp he1 with ⟨e0, he0, rfl⟩
    by_cases h0 : e0.id = r.id
    · constructor
      · intro _
        refine ⟨by simp [h0, markPending, markRetry],
          by simp [h0, markPending, markRetry, incAttempts, ha],
          by simp [h0, markPending, markRetry, backoffMinutes, ha],
          by simp [h0, markPending, markRetry], ?_⟩
        intro t _ hle
        exact lt_of_le_of_lt hle
          (Nat.lt_add_of_pos_right (pow_pos (by norm_num) a))
      · intro hge
        exact absurd hlt (by omega)
    · simp only [if_neg h0] at hid
      exact absurd hid h0
  · have hsr : shouldRetry r.attempts = false := by
      rw [ha]; simp [shouldRetry, hlt]
    have heq : processReminder s r now (Except.error msg) =
        addNotice
          (updateReminder (updateReminder s r.id (markPending r now)) r.id
            (markFailed now msg))
          { ntype := "reminder-failed", invoiceId := r.invoiceId,
            reminderId := r.id } := by
      simp only [processReminder, hinv, hnp, if_false, hbh, Bool.not_true,
        Bool.false_eq_true, hsr, if_false]
    rw [heq, reminders_addNotice] at he'
    rcases mem_updateReminder.mp he' with ⟨e1, he1, rfl⟩
    rcases mem_updateReminder.mp he1 with ⟨e0, he0, rfl⟩
    by_cases h0 : e0.id = r.id
    · constructor
      · intro hlt'
        exact absurd hlt' hlt
      · intro _
        exact ⟨by simp [h0, markPending, markFailed],
          by simp [h0, markPending, markFailed, incAttempts, ha],
          by simp [h0, markPending, markFailed],
          by simp [h0, markPending, markFailed]⟩
    · simp only [if_neg h0] at hid
      exact absurd hid h0

/-- C4 witness: the amended theorem applied to the concrete state s4 with a
throwing channel call at time 0 and captured attempts 0. -/
theorem C4_failure_retry_and_cap_witness :
    (getInvoice s4 "INV-4" = some inv4 ∧ inv4.status ≠ IStatus.paid ∧
      isWithinBusinessHours s4.settings 0 = true ∧ r4.attempts = some 0) ∧
    (∀ e ∈ (processReminder s4 r4 0 (Except.error "boom")).reminders,
      e.id = r4.id →
      (0 < 3 →
        e.status = RStatus.scheduled ∧ e.attempts = some (0 + 1) ∧
        e.nextAttempt = some (0 + 2 ^ 0) ∧ e.error = some "boom" ∧
        ∀ t, r4.nextAttempt = some t → t ≤ 0 → t < 0 + 2 ^ 0) ∧
      (3 ≤ 0 →
        e.status = RStatus.failed ∧ e.attempts = some (0 + 1) ∧
        e.failedAt = some 0 ∧ e.error = some "boom")) :=
  ⟨⟨by decide, by decide, by decide, rfl⟩,
    C4_failure_retry_and_cap s4 r4 0 0 inv4 "boom" (by decide) (by decide)
      (by decide) rfl⟩

/-- C5 counterexample — the claim states that derivation at October 1
creates exactly 3 reminders and no afterDue reminders.  The after-due
branch of scheduleRemindersForInvoice has no time guard at all, so the two
afterDue offsets are materialized as well: 5 reminders in total, 2 of them
afterDue. -/
theorem C5_counterexample_five_reminders :
    (scheduleRemindersForUnpaidInvoices s5 (octDay 1)).reminders.length = 5 ∧
    ((scheduleRemindersForUnpaidInvoices s5 (octDay 1)).reminders.filter
      fun e => decide (e.rtype = RType.afterDue)).length = 2 ∧
    (5 : Nat) ≠ 3 := by
  refine ⟨by decide, by decide, by decide⟩

/-- C5 — worked derivation example, amended: for the stated policy and the
unpaid invoice due 2024-10-10 with empty ledger and history, one derivation
run at 2024-10-01 creates exactly 5 reminders: beforeDue/7 targeted at
2024-10-03, beforeDue/3 at 2024-10-07, onDue at 2024-10-10, and also
afterDue/1 at 2024-10-11 and afterDue/7 at 2024-10-17, because after-due
reminders are created with no future-time constraint. -/
theorem C5_worked_example_amended :
    (scheduleRemindersForUnpaidInvoices s5 (octDay 1)).reminders.map
        (fun e => (e.invoiceId, e.rtype, e.days, e.nextAttempt, e.status,
          e.attempts)) =
      [("INV-5", RType.beforeDue, some 7, some (octDay 3), RStatus.scheduled,
        some 0),
       ("INV-5", RType.beforeDue, some 3, some (octDay 7), RStatus.scheduled,
        some 0),
       ("INV-5", RType.onDue, none, some (octDay 10), RStatus.scheduled,
        some 0),
       ("INV-5", RType.afterDue, some 1, some (octDay 11), RStatus.scheduled,
        some 0),
       ("INV-5", RType.afterDue, some 7, some (octDay 17), RStatus.scheduled,
        some 0)] := by
  rfl

/-- C6 counterexample — the claim states the gating window is half open,
[startMinuteOfDay, endMinuteOfDay), so at minute 1020 = 17:00 exactly (the
end minute) no delivery attempt should be made.  The source comparison is
currentTime <= endTime, inclusive, so at minute of day 1020 the reminder is
dispatched: it ends sent with attempts = 1. -/
theorem C6_counterexample_end_minute_inclusive :
    set6.businessHours.endHour * 60 + set6.businessHours.endMinute = 1020 ∧
    isWithinBusinessHours set6 1020 = true ∧
    (processDueReminders s6 1020 chOk).reminders.map
        (fun e => (e.status, e.attempts)) = [(RStatus.sent, some 1)] := by
  refine ⟨by decide, by decide, by decide⟩

/-- C6 — business-hours gating, amended: when businessHours.enabled is
false the gate always passes; when enabled, the gate passes exactly when
the minute of day lies in the CLOSED interval from startMinuteOfDay to
endMinuteOfDay (the end minute is included); and when the gate rejects, the
due reminder of an existing unpaid invoice is not attempted: only its
nextAttemptAt (set to the start of the next business day) and its
rescheduledReason change, so its status and attempts are untouched. -/
theorem C6_business_hours_gating (s : SchedState) (r : Reminder) (now : Nat)
    (res : Except String SendResult) (inv : Invoice)
    (hinv : getInvoice s r.invoiceId = some inv)
    (hnp : inv.status ≠ IStatus.paid) :
    (∀ st : ReminderSettings, ∀ m : Nat, st.businessHours.enabled = false →
      isWithinBusinessHours st m = true) ∧
    (isWithinBusinessHours s.settings now =
      (!s.settings.businessHours.enabled ||
        (decide (s.settings.businessHours.startHour * 60 +
            s.settings.businessHours.startMinute ≤ now % 1440) &&
          decide (now % 1440 ≤ s.settings.businessHours.endHour * 60 +
            s.settings.businessHours.endMinute)))) ∧
    (isWithinBusinessHours s.settings now = false →
      (processReminder s r now res).reminders = s.reminders.map fun e =>
        if e.id = r.id then
          { e with
            nextAttempt := some (nextBusinessDayStart s.settings now)
            rescheduledReason := some "Outside business hours" }
        else e) := by
  refine ⟨?_, ?_, ?_⟩
  · intro st m h
    simp [isWithinBusinessHours, h]
  · cases h : s.settings.businessHours.enabled <;>
      simp [isWithinBusinessHours, h]
  · intro hb
    have heq : processReminder s r now res = rescheduleToBusinessHours s r now := by
      simp only [processReminder, hinv, hnp, if_false, hb, Bool.not_false,
        if_true]
    rw [heq]
    rfl

/-- C6 witness: the amended theorem applied to the concrete gated state s6
at midnight (minute of day 0, outside the window). -/
theorem C6_business_hours_gating_witness :
    (getInvoice s6 "INV-6" = some inv6 ∧ inv6.status ≠ IStatus.paid) ∧
    ((∀ st : ReminderSettings, ∀ m : Nat, st.businessHours.enabled = false →
      isWithinBusinessHours st m = true) ∧
    (isWithinBusinessHours s6.settings 0 =
      (!s6.settings.businessHours.enabled ||
        (decide (s6.settings.businessHours.startHour * 60 +
            s6.settings.businessHours.startMinute ≤ 0 % 1440) &&
          decide (0 % 1440 ≤ s6.settings.businessHours.endHour * 60 +
            s6.settings.businessHours.endMinute)))) ∧
    (isWithinBusinessHours s6.settings 0 = false →
      (processReminder s6 r6 0 (Except.ok
        { success := true, messageId := "mid", provider := "test" })).reminders =
        s6.reminders.map fun e =>
        if e.id = r6.id then
          { e with
            nextAttempt := some (nextBusinessDayStart s6.settings 0)
            rescheduledReason := some "Outside business hours" }
        else e)) :=
  ⟨⟨by decide, by decide⟩,
    C6_business_hours_gating s6 r6 0
      (Except.ok { success := true, messageId := "mid", provider := "test" })
      inv6 (by decide) (by decide)⟩

/-- C7 counterexample — the claim states derivation creates no reminders
when the invoice has no due date.  Only DRAFT invoices without a due date
are skipped; a sent-status invoice without a due date passes the guard, and
the unguarded after-due branch still creates a reminder for it (with an
absent nextAttempt, the image of the Invalid Date). -/
theorem C7_counterexample_no_due_date_not_skipped :
    inv7.dueDate = none ∧ inv7.status ≠ IStatus.draft ∧
    (scheduleRemindersForUnpaidInvoices s7 0).reminders.map
        (fun e => (e.invoiceId, e.rtype, e.days, e.nextAttempt)) =
      [("INV-7", RType.afterDue, some 1, none)] := by
  refine ⟨rfl, by decide, by decide⟩

/-- C7 — derivation skip preconditions, amended: derivation creates no
reminders when policy.enabled is false; an invoice is skipped when its
status is paid, when it is a draft without a due date, or when its
reminderHistory already holds at least maxReminders entries.  A non-draft
invoice without a due date is NOT skipped (its after-due reminders are
still created, as the counterexample shows). -/
theorem C7_skip_preconditions :
    (∀ s : SchedState, ∀ now : Nat, s.settings.enabled = false →
      scheduleRemindersForUnpaidInvoices s now = s) ∧
    (∀ st : ReminderSettings, ∀ inv : Invoice, inv.status = IStatus.paid →
      shouldScheduleReminders st inv = false) ∧
    (∀ st : ReminderSettings, ∀ inv : Invoice, inv.status = IStatus.draft →
      inv.dueDate = none → shouldScheduleReminders st inv = false) ∧
    (∀ st : ReminderSettings, ∀ inv : Invoice,
      st.maxReminders ≤ inv.reminderHistory.length →
      shouldScheduleReminders st inv = false) := by
  refine ⟨?_, ?_, ?_, ?_⟩
  · intro s now h
    simp [scheduleRemindersForUnpaidInvoices, h]
  · intro st inv h
    simp [shouldScheduleReminders, h]
  · intro st inv h hd
    simp [shouldScheduleReminders, h, hd]
  · intro st inv h
    unfold shouldScheduleReminders
    split
    · rfl
    · split
      · rfl
      · simp [h]

/-- C7 witness: the skip conditions applied to a concrete disabled policy, a
concrete paid invoice, a concrete draft invoice without a due date and a
concrete invoice whose history is full. -/
theorem C7_skip_preconditions_witness :
    ({ s7 with settings := { set7 with enabled := false } }.settings.enabled
        = false ∧
      ({ id := "P", status := IStatus.paid, dueDate := none,
          reminderHistory := [] } : Invoice).status = IStatus.paid) ∧
    (scheduleRemindersForUnpaidInvoices
        { s7 with settings := { set7 with enabled := false } } 0 =
      { s7 with settings := { set7 with enabled := false } } ∧
    shouldScheduleReminders set7
      { id := "P", status := IStatus.paid, dueDate := none,
        reminderHistory := [] } = false ∧
    shouldScheduleReminders set7
      { id := "D", status := IStatus.draft, dueDate := none,
        reminderHistory := [] } = false ∧
    shouldScheduleReminders { set7 with maxReminders := 0 }
      { id := "F", status := IStatus.sent, dueDate := some 100,
        reminderHistory := [] } = false) :=
  ⟨⟨by decide, by decide⟩,
    C7_skip_preconditions.1 _ 0 (by decide),
    C7_skip_preconditions.2.1 set7 _ (by decide),
    C7_skip_preconditions.2.2.1 set7 _ (by decide) rfl,
    C7_skip_preconditions.2.2.2 _ _ (by decide)⟩

/-- Folding the cancellation update over a list of captured reminders
cancels exactly the listed ids and leaves every other record untouched. -/
theorem cancelFold_mem (now : Nat) :
    ∀ (l : List Reminder) (s : SchedState),
      ∀ e' ∈ (l.foldl
          (fun st r0 => updateReminder st r0.id (cancelManual now))
          s).reminders,
        (e'.id ∈ l.map (fun e => e.id) →
          e'.status = RStatus.cancelled ∧ e'.cancelledAt = some now ∧
            e'.reason = some "Manual cancellation") ∧
        (e'.id ∉ l.map (fun e => e.id) → e' ∈ s.reminders) := by
  intro l
  induction l with
  | nil =>
    intro s e' he'
    exact ⟨fun h => absurd h (List.not_mem_nil _), fun _ => he'⟩
  | cons r0 l ih =>
    intro s e' he'
    have H := ih (updateReminder s r0.id (cancelManual now)) e' he'
    constructor
    · intro hm
      rw [List.map_cons] at hm
      by_cases hin : e'.id ∈ l.map fun e => e.id
      · exact H.1 hin
      · have h0 : e'.id = r0.id := by
          rcases List.mem_cons.mp hm with h | h
          · exact h
          · exact absurd h hin
        have hmem := H.2 hin
        rcases mem_updateReminder.mp hmem with ⟨e, he, rfl⟩
        by_cases hid : e.id = r0.id
        · simp [hid, cancelManual]
        · simp only [if_neg hid] at h0
          exact absurd h0 hid
    · intro hm
      rw [List.map_cons] at hm
      have hin : e'.id ∉ l.map fun e => e.id :=
        fun h => hm (List.mem_cons_of_mem _ h)
      have hne : e'.id ≠ r0.id :=
        fun h => hm (h ▸ List.mem_cons_self _ _)
      have hmem := H.2 hin
      rcases mem_updateReminder.mp hmem with ⟨e, he, rfl⟩
      by_cases hid : e.id = r0.id
      · exact absurd
          (show (if e.id = r0.id then cancelManual now e else e).id = r0.id by
            simp [hid, cancelManual]) hne
      · simpa [hid] using he

/-- A call whose scheduled-reminder filter is empty returns the state
unchanged with count 0. -/
theorem cancelScheduledReminders_of_filter_nil (s : SchedState)
    (invoiceId : String) (now : Nat)
    (h : s.reminders.filter (fun r => decide (r.invoiceId = invoiceId) &&
      decide (r.status = RStatus.scheduled)) = []) :
    cancelScheduledReminders s invoiceId now = (s, 0) := by
  unfold cancelScheduledReminders
  rw [h]
  rfl

/-- C8 — cancelForInvoice, amended: cancelScheduledReminders transitions to
cancelled exactly the reminders of the invoice whose status is scheduled
(stamping cancelledAt and the reason), returns their count, and leaves no
scheduled reminder of the invoice behind; a reminder of the invoice in any
other non-terminal status (pending, manual) is NOT touched.  It is
idempotent: the second call returns 0 and changes nothing. -/
theorem C8_cancel_for_invoice (s : SchedState) (invoiceId : String)
    (now : Nat) :
    (cancelScheduledReminders s invoiceId now).2 =
      (s.reminders.filter fun r => decide (r.invoiceId = invoiceId) &&
        decide (r.status = RStatus.scheduled)).length ∧
    (∀ r ∈ s.reminders, r.invoiceId = invoiceId →
      r.status = RStatus.scheduled →
      ∀ e ∈ (cancelScheduledReminders s invoiceId now).1.reminders,
        e.id = r.id →
          e.status = RStatus.cancelled ∧ e.cancelledAt = some now ∧
            e.reason = some "Manual cancellation") ∧
    (∀ e ∈ (cancelScheduledReminders s invoiceId now).1.reminders,
      e.invoiceId = invoiceId → e.status ≠ RStatus.scheduled) ∧
    cancelScheduledReminders (cancelScheduledReminders s invoiceId now).1
        invoiceId now =
      ((cancelScheduledReminders s invoiceId now).1, 0) := by
  have hmain := cancelFold_mem now
    (s.reminders.filter fun r => decide (r.invoiceId = invoiceId) &&
      decide (r.status = RStatus.scheduled)) s
  have hnosched : ∀ e ∈ (cancelScheduledReminders s invoiceId now).1.reminders,
      e.invoiceId = invoiceId → e.status ≠ RStatus.scheduled := by
    intro e he hinv hst
    by_cases hin : e.id ∈ (s.reminders.filter fun r =>
        decide (r.invoiceId = invoiceId) &&
        decide (r.status = RStatus.scheduled)).map fun e0 => e0.id
    · have := (hmain e he).1 hin
      rw [hst] at this
      exact absurd this.1 (by decide)
    · have hmem := (hmain e he).2 hin
      have : e ∈ s.reminders.filter fun r =>
          decide (r.invoiceId = invoiceId) &&
          decide (r.status = RStatus.scheduled) :=
        List.mem_filter.mpr ⟨hmem, by simp [hinv, hst]⟩
      exact hin (List.mem_map_of_mem _ this)
  refine ⟨rfl, ?_, hnosched, ?_⟩
  · intro r hr hinv hst e he hid
    have hrf : r ∈ s.reminders.filter fun r0 =>
        decide (r0.invoiceId = invoiceId) &&
        decide (r0.status = RStatus.scheduled) :=
      List.mem_filter.mpr ⟨hr, by simp [hinv, hst]⟩
    exact (hmain e he).1 (hid ▸ List.mem_map_of_mem _ hrf)
  · have hnil : ((cancelScheduledReminders s invoiceId now).1.reminders.filter
        fun r => decide (r.invoiceId = invoiceId) &&
          decide (r.status = RStatus.scheduled)) = [] := by
      rw [List.filter_eq_nil_iff]
      intro a ha hpa
      simp only [Bool.and_eq_true, decide_eq_true_eq] at hpa
      exact hnosched a ha hpa.1 hpa.2
    exact cancelScheduledReminders_of_filter_nil _ invoiceId now hnil

/-- C8 counterexample — the claim states cancelForInvoice transitions EVERY
non-terminal reminder of the invoice to cancelled and returns their count.
The source filter selects only status scheduled, so the pending (non
terminal) reminder of INV-8 is left pending and the call returns 0 instead
of 1. -/
theorem C8_counterexample_pending_not_cancelled :
    r8.status = RStatus.pending ∧
    (cancelScheduledReminders s8 "INV-8" 50).2 = 0 ∧
    (cancelScheduledReminders s8 "INV-8" 50).1.reminders.map
        (fun e => e.status) = [RStatus.pending] ∧
    RStatus.pending ≠ RStatus.cancelled ∧ RStatus.pending ≠ RStatus.sent ∧
    RStatus.pending ≠ RStatus.failed := by
  refine ⟨rfl, by decide, by decide, by decide, by decide, by decide⟩

/-- C8 witness: the amended theorem applied to the concrete state s8w. -/
theorem C8_cancel_for_invoice_witness :
    (cancelScheduledReminders s8w "INV-3" 50).2 =
      (s8w.reminders.filter fun r => decide (r.invoiceId = "INV-3") &&
        decide (r.status = RStatus.scheduled)).length ∧
    (∀ r ∈ s8w.reminders, r.invoiceId = "INV-3" →
      r.status = RStatus.scheduled →
      ∀ e ∈ (cancelScheduledReminders s8w "INV-3" 50).1.reminders,
        e.id = r.id →
          e.status = RStatus.cancelled ∧ e.cancelledAt = some 50 ∧
            e.reason = some "Manual cancellation") ∧
    (∀ e ∈ (cancelScheduledReminders s8w "INV-3" 50).1.reminders,
      e.invoiceId = "INV-3" → e.status ≠ RStatus.scheduled) ∧
    cancelScheduledReminders (cancelScheduledReminders s8w "INV-3" 50).1
        "INV-3" 50 =
      ((cancelScheduledReminders s8w "INV-3" 50).1, 0) :=
  C8_cancel_for_invoice s8w "INV-3" 50

/-- Replacing the history of the invoice that getInvoice returns is visible
through the next getInvoice. -/
theorem getInvoice_updateInvoiceHistory_self {s : SchedState} {invId : String}
    {inv : Invoice} (h : getInvoice s invId = some inv)
    (hist : List HistEntry) :
    getInvoice (updateInvoiceHistory s inv.id hist) invId =
      some { inv with reminderHistory := hist } := by
  unfold getInvoice updateInvoiceHistory at *
  rw [show ({ s with
      invoices := s.invoices.map fun i =>
        if i.id = inv.id then { i with reminderHistory := hist } else i } :
      SchedState).invoices =
    s.invoices.map fun i =>
      if i.id = inv.id then { i with reminderHistory := hist } else i from rfl]
  rw [find?_map_pred]
  · rw [h]
    simp
  · intro a
    by_cases ha : a.id = inv.id <;> simp [ha]

/-- C10 — implicit claim, confirmed: a Notification Channel call that
resolves is treated as a success unconditionally.  Whatever the value of
the success flag of the resolved result, the reminder is marked sent with
sentAt = now and the messageId and provider of the result, and one audit
entry is appended to the reminderHistory of the invoice; the retry and
failed paths are reachable only from a throwing call (Except.error). -/
theorem C10_resolved_channel_result_is_sent (s : SchedState) (r : Reminder)
    (now : Nat) (result : SendResult) (inv : Invoice)
    (hinv : getInvoice s r.invoiceId = some inv)
    (hnp : inv.status ≠ IStatus.paid)
    (hbh : isWithinBusinessHours s.settings now = true) :
    (∀ e ∈ (processReminder s r now (Except.ok result)).reminders,
      e.id = r.id →
        e.status = RStatus.sent ∧ e.sentAt = some now ∧
        e.messageId = some result.messageId ∧
        e.provider = some result.provider) ∧
    getInvoice (processReminder s r now (Except.ok result)) r.invoiceId =
      some { inv with reminderHistory :=
        inv.reminderHistory ++ [historyEntry r result now] } := by
  have heq : processReminder s r now (Except.ok result) =
      addNotice (addToInvoiceReminderHistory
        (updateReminder (updateReminder s r.id (markPending r now)) r.id
          (markSent result now)) inv r result now)
        { ntype := "reminder-sent", invoiceId := inv.id,
          reminderId := r.id } := by
    simp only [processReminder, hinv, hnp, if_false, hbh, Bool.not_true,
      Bool.false_eq_true]
  constructor
  · intro e' he' hid
    rw [heq, reminders_addNotice, addToInvoiceReminderHistory,
      reminders_updateInvoiceHistory] at he'
    rcases mem_updateReminder.mp he' with ⟨e1, he1, rfl⟩
    rcases mem_updateReminder.mp he1 with ⟨e0, he0, rfl⟩
    by_cases h0 : e0.id = r.id
    · exact ⟨by simp [h0, markPending, markSent],
        by simp [h0, markPending, markSent],
        by simp [h0, markPending, markSent],
        by simp [h0, markPending, markSent]⟩
    · simp only [if_neg h0] at hid
      exact absurd hid h0
  · rw [heq]
    exact getInvoice_updateInvoiceHistory_self
      (show getInvoice (updateReminder (updateReminder s r.id
          (markPending r now)) r.id (markSent result now)) r.invoiceId =
        some inv from hinv) _

/-- C10 witness: the theorem applied to the concrete unpaid-invoice state
s4 with a channel call that resolves carrying success = false; the reminder
is still marked sent and the audit entry still appended. -/
theorem C10_resolved_channel_result_is_sent_witness :
    (getInvoice s4 "INV-4" = some inv4 ∧ inv4.status ≠ IStatus.paid ∧
      isWithinBusinessHours s4.settings 5 = true ∧ sr0.success = false) ∧
    ((∀ e ∈ (processReminder s4 r4 5 (Except.ok sr0)).reminders,
      e.id = r4.id →
        e.status = RStatus.sent ∧ e.sentAt = some 5 ∧
        e.messageId = some sr0.messageId ∧ e.provider = some sr0.provider) ∧
    getInvoice (processReminder s4 r4 5 (Except.ok sr0)) "INV-4" =
      some { inv4 with reminderHistory := inv4.reminderHistory ++
        [historyEntry r4 sr0 5] }) :=
  ⟨⟨by decide, by decide, by decide, rfl⟩,
    C10_resolved_channel_result_is_sent s4 r4 5 sr0 inv4
      (by decide) (by decide) (by decide)⟩

/-- C9 counterexample — the claim states sendManualReminder bypasses
business-hours gating and drives the reminder through dispatch once,
appending to reminderHistory on success.  The manual reminder goes through
processReminder, whose business-hours check applies to it: at minute of day
0 (outside 09:00-17:00) the reminder is deferred to the next business day
(minute 1980) without any dispatch, even though the channel would have
succeeded; no history entry is appended and nothing is sent. -/
theorem C9_counterexample_manual_gated_by_business_hours :
    isWithinBusinessHours set6 0 = false ∧
    ((sendManualReminder s9 "INV-9" RType.onDue 0
        (Except.ok { success := true, messageId := "m", provider := "p" })).toOption.map
      fun st =>
        (st.reminders.map fun e =>
          (e.status, e.sentAt, e.nextAttempt, e.rescheduledReason),
          st.invoices.map fun i => i.reminderHistory)) =
      some ([(RStatus.manual, none, some 1980,
        some "Outside business hours")], [[]]) := by
  refine ⟨by decide, by rfl⟩

/-- C9 — sendManualReminder, amended: it bypasses derivation but NOT the
business-hours gate.  When the invoice is missing it throws Invoice not
found; when the invoice is paid the manual reminder is cancelled with
reason Invoice paid and the invoices are untouched; when dispatch is gated
(outside business hours) the manual reminder keeps its manual status, is
not sent, and is deferred to the start of the next business day with the
invoices untouched; and only when the invoice exists unpaid within business
hours does a resolving channel call mark it sent and append the audit entry
to the reminderHistory of the invoice. -/
theorem C9_manual_reminder (s : SchedState) (invoiceId : String) (t : RType)
    (now : Nat) (res : Except String SendResult)
    (hfresh : ∀ e ∈ s.reminders, e.id ≠ s.nextId) :
    (getInvoice s invoiceId = none →
      sendManualReminder s invoiceId t now res =
        Except.error "Invoice not found") ∧
    (∀ inv, getInvoice s invoiceId = some inv → inv.status = IStatus.paid →
      ∃ st, sendManualReminder s invoiceId t now res = Except.ok st ∧
        st.invoices = s.invoices ∧
        ∀ e ∈ st.reminders, e.id = s.nextId →
          e.status = RStatus.cancelled ∧ e.reason = some "Invoice paid") ∧
    (∀ inv, getInvoice s invoiceId = some inv → inv.status ≠ IStatus.paid →
      isWithinBusinessHours s.settings now = false →
      ∃ st, sendManualReminder s invoiceId t now res = Except.ok st ∧
        st.invoices = s.invoices ∧
        ∀ e ∈ st.reminders, e.id = s.nextId →
          e.status = RStatus.manual ∧ e.sentAt = none ∧
          e.nextAttempt = some (nextBusinessDayStart s.settings now)) ∧
    (∀ inv result, getInvoice s invoiceId = some inv →
      inv.status ≠ IStatus.paid →
      isWithinBusinessHours s.settings now = true →
      res = Except.ok result →
      ∃ st, sendManualReminder s invoiceId t now res = Except.ok st ∧
        (∀ e ∈ st.reminders, e.id = s.nextId →
          e.status = RStatus.sent ∧ e.sentAt = some now ∧
          e.messageId = some result.messageId) ∧
        getInvoice st invoiceId =
          some { inv with reminderHistory := inv.reminderHistory ++
            [historyEntry (manualDraft invoiceId t now s.nextId) result
              now] }) := by
  refine ⟨?_, ?_, ?_, ?_⟩
  · intro h
    simp only [sendManualReminder, h]
  · intro inv hinv hp
    have hsend : sendManualReminder s invoiceId t now res =
        Except.ok (processReminder (manualState s invoiceId t now)
          (manualDraft invoiceId t now s.nextId) now res) := by
      simp only [sendManualReminder, hinv]
      rfl
    have hM : getInvoice (manualState s invoiceId t now)
        (manualDraft invoiceId t now s.nextId).invoiceId = some inv := hinv
    have heq : processReminder (manualState s invoiceId t now)
        (manualDraft invoiceId t now s.nextId) now res =
        updateReminder (manualState s invoiceId t now)
          (manualDraft invoiceId t now s.nextId).id cancelPaid := by
      simp only [processReminder, hM, hp, if_true]
    refine ⟨_, hsend.trans (congrArg Except.ok heq), rfl, ?_⟩
    intro e he hid
    rcases mem_updateReminder.mp he with ⟨e0, he0, rfl⟩
    by_cases h0 : e0.id = (manualDraft invoiceId t now s.nextId).id
    · simp [h0, cancelPaid]
    · simp only [if_neg h0] at hid
      exact absurd hid h0
  · intro inv hinv hp hbh
    have hsend : sendManualReminder s invoiceId t now res =
        Except.ok (processReminder (manualState s invoiceId t now)
          (manualDraft invoiceId t now s.nextId) now res) := by
      simp only [sendManualReminder, hinv]
      rfl
    have hM : getInvoice (manualState s invoiceId t now)
        (manualDraft invoiceId t now s.nextId).invoiceId = some inv := hinv
    have hbhM : isWithinBusinessHours
        (manualState s invoiceId t now).settings now = false := hbh
    have heq : processReminder (manualState s invoiceId t now)
        (manualDraft invoiceId t now s.nextId) now res =
        rescheduleToBusinessHours (manualState s invoiceId t now)
          (manualDraft invoiceId t now s.nextId) now := by
      simp only [processReminder, hM, hp, if_false, hbhM, Bool.not_false,
        if_true]
    refine ⟨_, hsend.trans (congrArg Except.ok heq), rfl, ?_⟩
    intro e he hid
    rw [rescheduleToBusinessHours] at he
    rcases mem_updateReminder.mp he with ⟨e0, he0, rfl⟩
    rcases List.mem_append.mp he0 with h0s | h0d
    · have hne : e0.id ≠ s.nextId := hfresh e0 h0s
      by_cases h0 : e0.id = (manualDraft invoiceId t now s.nextId).id
      · exact absurd h0 hne
      · simp only [if_neg h0] at hid
        exact absurd hid hne
    · have h0 : e0 = manualDraft invoiceId t now s.nextId :=
        List.mem_singleton.mp h0d
      subst h0
      refine ⟨?_, ?_, ?_⟩ <;>
        simp [manualDraft, manualState, addReminder, nextBusinessDayStart]
  · intro inv result hinv hp hbh hres
    subst hres
    have hsend : sendManualReminder s invoiceId t now (Except.ok result) =
        Except.ok (processReminder (manualState s invoiceId t now)
          (manualDraft invoiceId t now s.nextId) now (Except.ok result)) := by
      simp only [sendManualReminder, hinv]
      rfl
    have hM : getInvoice (manualState s invoiceId t now)
        (manualDraft invoiceId t now s.nextId).invoiceId = some inv := hinv
    have hbhM : isWithinBusinessHours
        (manualState s invoiceId t now).settings now = true := hbh
    have heq : processReminder (manualState s invoiceId t now)
        (manualDraft invoiceId t now s.nextId) now (Except.ok result) =
        addNotice (addToInvoiceReminderHistory
          (updateReminder (updateReminder (manualState s invoiceId t now)
              (manualDraft invoiceId t now s.nextId).id
              (markPending (manualDraft invoiceId t now s.nextId) now))
            (manualDraft invoiceId t now s.nextId).id
            (markSent result now))
          inv (manualDraft invoiceId t now s.nextId) result now)
          { ntype := "reminder-sent", invoiceId := inv.id,
            reminderId := (manualDraft invoiceId t now s.nextId).id } := by
      simp only [processReminder, hM, hp, if_false, hbhM, Bool.not_true,
        Bool.false_eq_true]
    refine ⟨_, hsend.trans (congrArg Except.ok heq), ?_, ?_⟩
    · intro e he hid
      rw [reminders_addNotice, addToInvoiceReminderHistory,
        reminders_updateInvoiceHistory] at he
      rcases mem_updateReminder.mp he with ⟨e1, he1, rfl⟩
      rcases mem_updateReminder.mp he1 with ⟨e0, he0, rfl⟩
      rcases List.mem_append.mp he0 with h0s | h0d
      · have hne : e0.id ≠ s.nextId := hfresh e0 h0s
        by_cases h0 : e0.id = (manualDraft invoiceId t now s.nextId).id
        · exact absurd h0 hne
        · simp only [if_neg h0] at hid
          exact absurd hid hne
      · have h0 : e0 = manualDraft invoiceId t now s.nextId :=
          List.mem_singleton.mp h0d
        subst h0
        refine ⟨?_, ?_, ?_⟩ <;> simp [manualDraft, markPending, markSent]
    · exact getInvoice_updateInvoiceHistory_self
        (show getInvoice (updateReminder (updateReminder
            (manualState s invoiceId t now)
            (manualDraft invoiceId t now s.nextId).id
            (markPending (manualDraft invoiceId t now s.nextId) now))
          (manualDraft invoiceId t now s.nextId).id
          (markSent result now)) invoiceId = some inv from hinv) _

/-- C9 witness: the amended theorem applied to the concrete gated state s9
at minute 0 with a succeeding channel result. -/
theorem C9_manual_reminder_witness :
    (∀ e ∈ s9.reminders, e.id ≠ s9.nextId) ∧
    ((getInvoice s9 "INV-9" = none →
      sendManualReminder s9 "INV-9" RType.onDue 0 (Except.ok sr0) =
        Except.error "Invoice not found") ∧
    (∀ inv, getInvoice s9 "INV-9" = some inv → inv.status = IStatus.paid →
      ∃ st, sendManualReminder s9 "INV-9" RType.onDue 0 (Except.ok sr0) =
          Except.ok st ∧
        st.invoices = s9.invoices ∧
        ∀ e ∈ st.reminders, e.id = s9.nextId →
          e.status = RStatus.cancelled ∧ e.reason = some "Invoice paid") ∧
    (∀ inv, getInvoice s9 "INV-9" = some inv → inv.status ≠ IStatus.paid →
      isWithinBusinessHours s9.settings 0 = false →
      ∃ st, sendManualReminder s9 "INV-9" RType.onDue 0 (Except.ok sr0) =
          Except.ok st ∧
        st.invoices = s9.invoices ∧
        ∀ e ∈ st.reminders, e.id = s9.nextId →
          e.status = RStatus.manual ∧ e.sentAt = none ∧
          e.nextAttempt = some (nextBusinessDayStart s9.settings 0)) ∧
    (∀ inv result, getInvoice s9 "INV-9" = some inv →
      inv.status ≠ IStatus.paid →
      isWithinBusinessHours s9.settings 0 = true →
      (Except.ok sr0 : Except String SendResult) = Except.ok result →
      ∃ st, sendManualReminder s9 "INV-9" RType.onDue 0 (Except.ok sr0) =
          Except.ok st ∧
        (∀ e ∈ st.reminders, e.id = s9.nextId →
          e.status = RStatus.sent ∧ e.sentAt = some 0 ∧
          e.messageId = some result.messageId) ∧
        getInvoice st "INV-9" =
          some { inv with reminderHistory := inv.reminderHistory ++
            [historyEntry (manualDraft "INV-9" RType.onDue 0 s9.nextId)
              result 0] })) :=
  ⟨by decide,
    C9_manual_reminder s9 "INV-9" RType.onDue 0 (Except.ok sr0) (by decide)⟩

end InvoiceReminder
